import Mathlib

/-!
# Verification of the `rust_payment_engine` state-dispatch runtime

Shallow embedding of `src/rust_payment_engine/src/state_machine/`:
the `StateType` tags, the three pluggable states and their actions
(`states/awaiting_info.rs`, `states/emv_payment.rs`,
`states/payment_success.rs`), the `OnceLock`-backed dispatch registry
(`registry.rs`) and the `StateManager` runtime (`state_manager.rs`).

Modelling conventions:
* `f64` amounts are modelled as `ℚ` (the flows under study only compare
  against zero and copy values around; no float rounding is involved).
* `anyhow::Error` values are modelled as their literal message strings.
* The tokio unbounded channel is modelled as a list of delivered events
  plus a `receiver_alive` flag: `UnboundedSender::send` succeeds and
  appends exactly when the receiver endpoint is still alive, and fails
  (with display text "channel closed") when it has been dropped.
* `chrono::Utc::now().to_rfc3339()` is an ambient input, passed to
  `execute` as an explicit `ts : String` argument.
* The type-erased `Box<dyn Any + Send + Sync>` state is modelled by the
  closed sum `StateValue`; a `downcast` to a concrete state type is a
  match on the corresponding constructor.
* `execute` in the source first commits a transition to the two `RwLock`
  cells and only then notifies; a notify failure propagates with `?`.
  To keep that behaviour visible, the embedded `execute` returns the
  resulting manager and channel TOGETHER with the `Except` outcome,
  instead of discarding them inside the monad on error.
-/

/-- `StateType` from `types.rs`: the closed set of state tags. -/
inductive StateType where
  | AwaitingInfo
  | EMVPayment
  | PaymentSuccess
deriving DecidableEq, Repr

/-- The `{:?}` (Debug) rendering of a `StateType`, as used by
`format!("Transicionado para {:?}", ...)` and
`format!("Estado não registrado: {:?}", ...)`. -/
def stateTypeDebug : StateType → String
  | .AwaitingInfo => "AwaitingInfo"
  | .EMVPayment => "EMVPayment"
  | .PaymentSuccess => "PaymentSuccess"

/-- `StateChangeEvent` from `types.rs`. -/
structure StateChangeEvent where
  from_state : StateType
  to_state : StateType
  timestamp : String
deriving DecidableEq, Repr

/-- `PaymentType` from `states/awaiting_info.rs`. -/
inductive PaymentType where
  | Debit
  | Credit
deriving DecidableEq, Repr

/-- The `{:?}` (Debug) rendering of a `PaymentType`. -/
def paymentTypeDebug : PaymentType → String
  | .Debit => "Debit"
  | .Credit => "Credit"

/-- `PaymentInfo` from `states/awaiting_info.rs` (`amount: f64` as `ℚ`). -/
structure PaymentInfo where
  amount : ℚ
  payment_type : PaymentType
deriving DecidableEq, Repr

/-- `AwaitingInfoAction` from `states/awaiting_info.rs`. -/
inductive AwaitingInfoAction where
  | SetAmount (amount : ℚ)
  | SetPaymentType (payment_type : PaymentType)
  | ConfirmInfo
deriving DecidableEq, Repr

/-- The `AwaitingInfo` state struct. -/
structure AwaitingInfo where
  amount : Option ℚ
  payment_type : Option PaymentType
deriving DecidableEq, Repr

/-- `EmvResult` from `states/emv_payment.rs`. -/
structure EmvResult where
  transaction_id : String
  authorization_code : String
  timestamp : String
deriving DecidableEq, Repr

/-- `EmvPaymentAction` from `states/emv_payment.rs`. -/
inductive EmvPaymentAction where
  | ProcessPayment
  | CompletePayment (result : EmvResult)
  | CancelPayment
deriving DecidableEq, Repr

/-- The `EMVPayment` state struct. -/
structure EMVPayment where
  payment_info : PaymentInfo
  processing : Bool
  emv_result : Option EmvResult
deriving DecidableEq, Repr

/-- `PaymentSuccessAction` from `states/payment_success.rs`. -/
inductive PaymentSuccessAction where
  | Reset
deriving DecidableEq, Repr

/-- The `PaymentSuccess` state struct. -/
structure PaymentSuccess where
  payment_info : PaymentInfo
  result : EmvResult
deriving DecidableEq, Repr

/-- The contents of the type-erased `Box<dyn Any + Send + Sync>` state
slot: exactly one of the three concrete state structs. -/
inductive StateValue where
  | awaitingInfo (s : AwaitingInfo)
  | emvPayment (s : EMVPayment)
  | paymentSuccess (s : PaymentSuccess)
deriving DecidableEq, Repr

/-- The `StateType` tag that the concrete type of a stored value
corresponds to (which `downcast` would succeed on it). -/
def StateValue.variantTag : StateValue → StateType
  | .awaitingInfo _ => .AwaitingInfo
  | .emvPayment _ => .EMVPayment
  | .paymentSuccess _ => .PaymentSuccess

/-- The contents of the type-erased `Box<dyn Any>` action submitted to
`execute`: one of the three concrete action enums. -/
inductive AnyAction where
  | awaitingInfo (a : AwaitingInfoAction)
  | emv (a : EmvPaymentAction)
  | paymentSuccess (a : PaymentSuccessAction)
deriving DecidableEq, Repr

/-- `AwaitingInfo::initial` from `states/awaiting_info.rs`. -/
def AwaitingInfo.initial : AwaitingInfo :=
  { amount := none, payment_type := none }

/-- `AwaitingInfo::execute_action_with_transition`.
Errors carry the `anyhow!` message; `Ok` carries the (possibly mutated
in place) `self` together with the optional `(StateType, Box<next>)`. -/
def AwaitingInfo.execute_action_with_transition (s : AwaitingInfo)
    (action : AwaitingInfoAction) :
    Except String (AwaitingInfo × Option (StateType × StateValue)) :=
  match action with
  | .SetAmount amount =>
      if amount ≤ 0 then
        .error "Valor deve ser maior que zero"
      else
        .ok ({ s with amount := some amount }, none)
  | .SetPaymentType payment_type =>
      .ok ({ s with payment_type := some payment_type }, none)
  | .ConfirmInfo =>
      match s.amount with
      | none => .error "Valor não definido"
      | some amount =>
        match s.payment_type with
        | none => .error "Tipo de pagamento não definido"
        | some payment_type =>
          let payment_info : PaymentInfo := { amount, payment_type }
          let next_state : EMVPayment :=
            { payment_info, processing := false, emv_result := none }
          .ok (s, some (.EMVPayment, .emvPayment next_state))

/-- `AwaitingInfo::description` (trait impl in `states/awaiting_info.rs`).
The formatted branch is rendered through `fmtAmount2`. -/
def fmtAmount2 (q : ℚ) : String :=
  let c : ℤ := round (q * 100)
  let sign := if c < 0 then "-" else ""
  let n := c.natAbs
  let frac := n % 100
  let fracStr := (if frac < 10 then "0" else "") ++ toString frac
  sign ++ toString (n / 100) ++ "." ++ fracStr

/-- `AwaitingInfo::description`. -/
def AwaitingInfo.description (s : AwaitingInfo) : String :=
  match s.amount, s.payment_type with
  | some amt, some typ =>
      "Aguardando confirmação: R$ " ++ fmtAmount2 amt ++ " ("
        ++ paymentTypeDebug typ ++ ")"
  | _, _ => "Aguardando informações do pagamento"

/-- `EMVPayment::execute_action_with_transition`. -/
def EMVPayment.execute_action_with_transition (s : EMVPayment)
    (action : EmvPaymentAction) :
    Except String (EMVPayment × Option (StateType × StateValue)) :=
  match action with
  | .ProcessPayment =>
      if s.processing then
        .error "Pagamento já está sendo processado"
      else
        .ok ({ s with processing := true }, none)
  | .CompletePayment result =>
      if s.processing then
        let next_state : PaymentSuccess :=
          { payment_info := s.payment_info, result }
        .ok (s, some (.PaymentSuccess, .paymentSuccess next_state))
      else
        .error "Pagamento ainda não foi iniciado"
  | .CancelPayment =>
      .ok (s, some (.AwaitingInfo, .awaitingInfo AwaitingInfo.initial))

/-- `EMVPayment::description`. -/
def EMVPayment.description (s : EMVPayment) : String :=
  if s.processing then
    "Processando pagamento de R$ " ++ fmtAmount2 s.payment_info.amount ++ "..."
  else
    "Pronto para processar pagamento de R$ " ++ fmtAmount2 s.payment_info.amount

/-- `PaymentSuccess::execute_action_with_transition`. -/
def PaymentSuccess.execute_action_with_transition (s : PaymentSuccess)
    (action : PaymentSuccessAction) :
    Except String (PaymentSuccess × Option (StateType × StateValue)) :=
  match action with
  | .Reset =>
      .ok (s, some (.AwaitingInfo, .awaitingInfo AwaitingInfo.initial))

/-- `PaymentSuccess::description`. -/
def PaymentSuccess.description (s : PaymentSuccess) : String :=
  "Pagamento concluído com sucesso - ID: " ++ s.result.transaction_id
    ++ ", Código: " ++ s.result.authorization_code
    ++ ", Valor: R$ " ++ fmtAmount2 s.payment_info.amount

/-- `DispatchFn` from `registry.rs`: takes the type-erased state and
action; returns the (possibly mutated) state and the optional
transition, or an error. -/
def DispatchFn : Type :=
  StateValue → AnyAction →
    Except String (StateValue × Option (StateType × StateValue))

/-- The `STATE_REGISTRY: OnceLock<HashMap<StateType, DispatchFn>>` cell,
generic over the entry type: `none` is the uninitialised `OnceLock`,
`some m` holds the backing map (an association list with distinct keys
as inserted). -/
def Registry (D : Type) : Type := Option (List (StateType × D))

/-- `HashMap::get` on the backing map. -/
def mapGet {D : Type} : List (StateType × D) → StateType → Option D
  | [], _ => none
  | (k, v) :: rest, t => if k = t then some v else mapGet rest t

/-- `register_state` from `registry.rs`: `STATE_REGISTRY.get_or_init`
with a singleton map. If the cell is already populated the call leaves
it untouched; otherwise it installs the one-entry map. -/
def register_state {D : Type} (r : Registry D) (state_type : StateType)
    (dispatch_fn : D) : Registry D :=
  match r with
  | some m => some m
  | none => some [(state_type, dispatch_fn)]

/-- The `let _ = STATE_REGISTRY.set(registry)` step at the end of
`initialize_registry`: install `m` if the cell is empty, silently keep
the existing map otherwise. -/
def registrySet {D : Type} (r : Registry D) (m : List (StateType × D)) :
    Registry D :=
  match r with
  | some m0 => some m0
  | none => some m

/-- `get_dispatch_fn` from `registry.rs`:
`STATE_REGISTRY.get().and_then(|registry| registry.get(&t).copied())`. -/
def get_dispatch_fn {D : Type} (r : Registry D) (state_type : StateType) :
    Option D :=
  match r with
  | none => none
  | some m => mapGet m state_type

/-- The `AwaitingInfo` closure inserted by `initialize_registry`:
downcast the state (failure: "Estado inválido"), then the action
(failure: "Ação incompatível"), then run the state's transition. -/
def awaitingInfoDispatch : DispatchFn := fun state action =>
  match state with
  | .awaitingInfo s =>
    match action with
    | .awaitingInfo a =>
      match s.execute_action_with_transition a with
      | .error e => .error e
      | .ok (s', tr) => .ok (.awaitingInfo s', tr)
    | _ => .error "Ação incompatível"
  | _ => .error "Estado inválido"

/-- The `EMVPayment` closure inserted by `initialize_registry`. -/
def emvPaymentDispatch : DispatchFn := fun state action =>
  match state with
  | .emvPayment s =>
    match action with
    | .emv a =>
      match s.execute_action_with_transition a with
      | .error e => .error e
      | .ok (s', tr) => .ok (.emvPayment s', tr)
    | _ => .error "Ação incompatível"
  | _ => .error "Estado inválido"

/-- The `PaymentSuccess` closure inserted by `initialize_registry`. -/
def paymentSuccessDispatch : DispatchFn := fun state action =>
  match state with
  | .paymentSuccess s =>
    match action with
    | .paymentSuccess a =>
      match s.execute_action_with_transition a with
      | .error e => .error e
      | .ok (s', tr) => .ok (.paymentSuccess s', tr)
    | _ => .error "Ação incompatível"
  | _ => .error "Estado inválido"

/-- The full map built by `initialize_registry` before the `set` call. -/
def fullRegistryMap : List (StateType × DispatchFn) :=
  [(.AwaitingInfo, awaitingInfoDispatch),
   (.EMVPayment, emvPaymentDispatch),
   (.PaymentSuccess, paymentSuccessDispatch)]

/-- `initialize_registry` from `registry.rs`: build the full map and
`set` it into the `OnceLock` (ignored if already populated). -/
def initialize_registry (r : Registry DispatchFn) : Registry DispatchFn :=
  registrySet r fullRegistryMap

/-- The registry as left by a successful first `initialize_registry`. -/
def fullRegistry : Registry DispatchFn := initialize_registry none

/-- The two `RwLock` cells of `StateManager` (`state_manager.rs`):
the type-erased current state and its tag. -/
structure StateManager where
  current_state : StateValue
  current_state_type : StateType
deriving DecidableEq, Repr

/-- The event channel: events delivered so far (FIFO) plus whether the
`UnboundedReceiver` endpoint is still alive. -/
structure EventChannel where
  events : List StateChangeEvent
  receiver_alive : Bool
deriving DecidableEq, Repr

/-- `UnboundedSender::send`: succeeds (appending in FIFO order) iff the
receiver endpoint has not been dropped. -/
def EventChannel.sendEvent (ch : EventChannel) (e : StateChangeEvent) :
    Except Unit EventChannel :=
  if ch.receiver_alive then
    .ok { ch with events := ch.events ++ [e] }
  else
    .error ()

/-- `StateManager::notify_state_change`: build the event (with the
ambient timestamp `ts`) and send it; a send failure is mapped to
`anyhow!("Falha ao notificar mudança de estado: {}", e)` where the
tokio send error displays as "channel closed". -/
def StateManager.notify_state_change (ch : EventChannel)
    (from_state to_state : StateType) (ts : String) :
    Except String EventChannel :=
  let event : StateChangeEvent :=
    { from_state, to_state, timestamp := ts }
  match ch.sendEvent event with
  | .ok ch' => .ok ch'
  | .error _ => .error "Falha ao notificar mudança de estado: channel closed"

/-- `StateManager::new`: fresh manager plus a fresh channel whose
receiver endpoint is alive. -/
def StateManager.new (initial_state : StateValue)
    (initial_type : StateType) : StateManager × EventChannel :=
  ({ current_state := initial_state, current_state_type := initial_type },
   { events := [], receiver_alive := true })

/-- `StateManager::execute`, generalised over the tag the call read
from `current_state_type` before acquiring the write lock
(`observed_tag`).  In the source that read happens outside the value
lock, so under concurrency it may be stale; sequential execution always
passes `m.current_state_type`.  Returns the resulting manager cells and
channel TOGETHER with the `Result<String>`, because the source commits
the swap to the cells before the fallible notify. -/
def StateManager.executeObserved (reg : Registry DispatchFn)
    (observed_tag : StateType) (ts : String) (m : StateManager)
    (ch : EventChannel) (action : AnyAction) :
    StateManager × EventChannel × Except String String :=
  match get_dispatch_fn reg observed_tag with
  | none =>
      (m, ch, .error ("Estado não registrado: " ++ stateTypeDebug observed_tag))
  | some dispatch_fn =>
    match dispatch_fn m.current_state action with
    | .error e => (m, ch, .error e)
    | .ok (new_value, none) =>
        ({ m with current_state := new_value }, ch,
         .ok "Ação executada - permanece no mesmo estado")
    | .ok (_, some (new_type, new_state)) =>
        let old_type := m.current_state_type
        let m' : StateManager :=
          { current_state := new_state, current_state_type := new_type }
        match StateManager.notify_state_change ch old_type new_type ts with
        | .error e => (m', ch, .error e)
        | .ok ch' =>
            (m', ch', .ok ("Transicionado para " ++ stateTypeDebug new_type))

/-- `StateManager::execute` run to completion with no interference: the
tag observed in step 1 is the manager's current tag. -/
def StateManager.execute (reg : Registry DispatchFn) (ts : String)
    (m : StateManager) (ch : EventChannel) (action : AnyAction) :
    StateManager × EventChannel × Except String String :=
  StateManager.executeObserved reg m.current_state_type ts m ch action

/-- `StateManager::get_current_state_type`. -/
def StateManager.get_current_state_type (m : StateManager) : StateType :=
  m.current_state_type

/-- `StateManager::get_description`, specialised by a downcast function
(the `downcast_ref::<S>()` of the source) and a projection. -/
def StateManager.get_description {S : Type} (m : StateManager)
    (down : StateValue → Option S) (getter : S → String) :
    Except String String :=
  match down m.current_state with
  | none => .error "Estado inválido"
  | some s => .ok (getter s)

/-- `downcast_ref::<AwaitingInfo>()`. -/
def StateValue.downcastAwaitingInfo : StateValue → Option AwaitingInfo
  | .awaitingInfo s => some s
  | _ => none

/-! ## Execution helpers used by the theorems -/

/-- A registration call against the `OnceLock` cell: either a
`register_state` call or the final `set` of an `initialize_registry`
run (carrying the map that run built). -/
inductive RegOp (D : Type) where
  | reg (t : StateType) (f : D)
  | init (m : List (StateType × D))

/-- Apply one registration call. -/
def applyRegOp {D : Type} (r : Registry D) : RegOp D → Registry D
  | .reg t f => register_state r t f
  | .init m => registrySet r m

/-- Apply a sequence of registration calls, first to last. -/
def applyRegOps {D : Type} (r : Registry D) : List (RegOp D) → Registry D
  | [] => r
  | op :: ops => applyRegOps (applyRegOp r op) ops

/-- One `execute` call as scheduled by an interleaving: the tag the
call observed when it read `current_state_type` before acquiring the
value lock (possibly stale), the ambient timestamp, and the action. -/
structure ExecStep where
  observed_tag : StateType
  ts : String
  action : AnyAction

/-- Run a sequence of (possibly interleaved) `execute` calls against
the shared manager cells and channel, in lock-acquisition order. -/
def runSteps (reg : Registry DispatchFn) (m : StateManager)
    (ch : EventChannel) : List ExecStep → StateManager × EventChannel
  | [] => (m, ch)
  | step :: rest =>
      let r := StateManager.executeObserved reg step.observed_tag step.ts
        m ch step.action
      runSteps reg r.1 r.2.1 rest

/-- The pairing invariant of the two `RwLock` cells: the stored tag is
the tag of the concrete type of the stored value. -/
def tagConsistent (m : StateManager) : Prop :=
  m.current_state_type = m.current_state.variantTag

instance (m : StateManager) : Decidable (tagConsistent m) := by
  unfold tagConsistent; infer_instance

/-- Run a sequence of sequential `execute` calls, collecting the final
manager, the final channel, and every call's `Result<String>`. -/
def execSeq (reg : Registry DispatchFn) (m : StateManager)
    (ch : EventChannel) :
    List (String × AnyAction) →
      StateManager × EventChannel × List (Except String String)
  | [] => (m, ch, [])
  | (ts, a) :: rest =>
      let r := StateManager.execute reg ts m ch a
      let tail := execSeq reg r.1 r.2.1 rest
      (tail.1, tail.2.1, r.2.2 :: tail.2.2)

/-! ## Dispatcher soundness lemmas -/

/-- A dispatch function is variant-sound when an in-place (`Ok(None)`)
outcome keeps the stored value's concrete type and a transition
outcome pairs the successor with its own tag. -/
def dispatchSound (f : DispatchFn) : Prop :=
  ∀ v a v' tr, f v a = .ok (v', tr) →
    v'.variantTag = v.variantTag ∧
    ∀ t2 w, tr = some (t2, w) → w.variantTag = t2

theorem awaitingInfoDispatch_sound : dispatchSound awaitingInfoDispatch := by
  intro v a v' tr h
  cases v with
  | awaitingInfo s =>
    cases a with
    | awaitingInfo a0 =>
      rcases h0 : s.execute_action_with_transition a0 with e | ⟨s1, tr1⟩
      · simp [awaitingInfoDispatch, h0] at h
      · simp [awaitingInfoDispatch, h0] at h
        obtain ⟨hv, ht⟩ := h
        subst hv; subst ht
        refine ⟨rfl, ?_⟩
        intro t2 w hw
        subst hw
        cases a0 with
        | SetAmount amount =>
          by_cases hle : amount ≤ 0 <;>
            simp [AwaitingInfo.execute_action_with_transition, hle] at h0
        | SetPaymentType payment_type =>
          simp [AwaitingInfo.execute_action_with_transition] at h0
        | ConfirmInfo =>
          rcases hA : s.amount with _ | amt <;>
            rcases hP : s.payment_type with _ | pt <;>
            simp [AwaitingInfo.execute_action_with_transition, hA, hP] at h0
          obtain ⟨-, h2, h3⟩ := h0
          subst h2; subst h3; rfl
    | emv a0 => simp [awaitingInfoDispatch] at h
    | paymentSuccess a0 => simp [awaitingInfoDispatch] at h
  | emvPayment s => simp [awaitingInfoDispatch] at h
  | paymentSuccess s => simp [awaitingInfoDispatch] at h

theorem emvPaymentDispatch_sound : dispatchSound emvPaymentDispatch := by
  intro v a v' tr h
  cases v with
  | emvPayment s =>
    cases a with
    | emv a0 =>
      rcases h0 : s.execute_action_with_transition a0 with e | ⟨s1, tr1⟩
      · simp [emvPaymentDispatch, h0] at h
      · simp [emvPaymentDispatch, h0] at h
        obtain ⟨hv, ht⟩ := h
        subst hv; subst ht
        refine ⟨rfl, ?_⟩
        intro t2 w hw
        subst hw
        cases a0 with
        | ProcessPayment =>
          by_cases hp : s.processing <;>
            simp [EMVPayment.execute_action_with_transition, hp] at h0
        | CompletePayment result =>
          by_cases hp : s.processing <;>
            simp [EMVPayment.execute_action_with_transition, hp] at h0
          obtain ⟨-, h2, h3⟩ := h0
          subst h2; subst h3; rfl
        | CancelPayment =>
          simp [EMVPayment.execute_action_with_transition] at h0
          obtain ⟨-, h2, h3⟩ := h0
          subst h2; subst h3; rfl
    | awaitingInfo a0 => simp [emvPaymentDispatch] at h
    | paymentSuccess a0 => simp [emvPaymentDispatch] at h
  | awaitingInfo s => simp [emvPaymentDispatch] at h
  | paymentSuccess s => simp [emvPaymentDispatch] at h

theorem paymentSuccessDispatch_sound : dispatchSound paymentSuccessDispatch := by
  intro v a v' tr h
  cases v with
  | paymentSuccess s =>
    cases a with
    | paymentSuccess a0 =>
      cases a0 with
      | Reset =>
        simp [paymentSuccessDispatch,
          PaymentSuccess.execute_action_with_transition] at h
        obtain ⟨hv, ht⟩ := h
        subst hv; subst ht
        exact ⟨rfl, by intro t2 w hw; cases hw; rfl⟩
    | awaitingInfo a0 => simp [paymentSuccessDispatch] at h
    | emv a0 => simp [paymentSuccessDispatch] at h
  | awaitingInfo s => simp [paymentSuccessDispatch] at h
  | emvPayment s => simp [paymentSuccessDispatch] at h

/-- Every dispatch function stored by `initialize_registry` is
variant-sound. -/
theorem fullRegistry_dispatchSound (t : StateType) (f : DispatchFn)
    (h : get_dispatch_fn fullRegistry t = some f) : dispatchSound f := by
  cases t with
  | AwaitingInfo =>
    have : f = awaitingInfoDispatch := by
      simpa [fullRegistry, initialize_registry, registrySet,
        fullRegistryMap, get_dispatch_fn, mapGet] using h.symm
    exact this ▸ awaitingInfoDispatch_sound
  | EMVPayment =>
    have : f = emvPaymentDispatch := by
      simpa [fullRegistry, initialize_registry, registrySet,
        fullRegistryMap, get_dispatch_fn, mapGet] using h.symm
    exact this ▸ emvPaymentDispatch_sound
  | PaymentSuccess =>
    have : f = paymentSuccessDispatch := by
      simpa [fullRegistry, initialize_registry, registrySet,
        fullRegistryMap, get_dispatch_fn, mapGet] using h.symm
    exact this ▸ paymentSuccessDispatch_sound

/-- One `execute` call — whatever tag it observed before acquiring the
lock — leaves the tag/value pairing of the cells intact. -/
theorem executeObserved_preserves_tagConsistent (obs : StateType)
    (ts : String) (m : StateManager) (ch : EventChannel) (a : AnyAction)
    (h : tagConsistent m) :
    tagConsistent
      (StateManager.executeObserved fullRegistry obs ts m ch a).1 := by
  unfold StateManager.executeObserved
  rcases hf : get_dispatch_fn fullRegistry obs with _ | f
  · simpa using h
  · have hs := fullRegistry_dispatchSound obs f hf
    rcases hr : f m.current_state a with e | ⟨v', tr⟩
    · simpa [hr] using h
    · rcases tr with _ | ⟨t2, w⟩
      · have hvar := (hs m.current_state a v' none hr).1
        simpa [tagConsistent, hr, hvar] using h
      · have hw := (hs m.current_state a v' (some (t2, w)) hr).2 t2 w rfl
        rcases hn : StateManager.notify_state_change ch
            m.current_state_type t2 ts with e2 | ch2 <;>
          simpa [tagConsistent, hr, hn] using hw.symm

/-! ## Claim theorems -/

/-- C2: the registry is write-once on first use. Once the `OnceLock`
cell is populated, every later `register_state` or
`initialize_registry`-style `set` call is silently ignored, so the very
first populating call fixes the table permanently; in particular after
`register_state(t1, f1)` followed by `register_state(t2, f2)` with
`t2 ≠ t1`, `lookup(t1) = Some f1` and `lookup(t2) = None`. -/
theorem registry_first_population_wins :
    (∀ (D : Type) (m : List (StateType × D)) (ops : List (RegOp D)),
       applyRegOps (some m) ops = some m)
  ∧ (∀ (D : Type) (t1 t2 : StateType) (f1 f2 : D), t2 ≠ t1 →
       get_dispatch_fn
         (register_state (register_state (none : Registry D) t1 f1) t2 f2)
         t1 = some f1
     ∧ get_dispatch_fn
         (register_state (register_state (none : Registry D) t1 f1) t2 f2)
         t2 = none) := by
  constructor
  · intro D m ops
    induction ops with
    | nil => rfl
    | cons op ops ih =>
      cases op <;>
        simpa [applyRegOps, applyRegOp, register_state, registrySet] using ih
  · intro D t1 t2 f1 f2 h
    constructor
    · simp [register_state, get_dispatch_fn, mapGet]
    · simp [register_state, get_dispatch_fn, mapGet, Ne.symm h]

/-- Witness for C2 at concrete inputs. -/
theorem registry_first_population_wins_witness :
    applyRegOps (some [(StateType.AwaitingInfo, 7)])
      [RegOp.reg .EMVPayment 9, RegOp.init [(.PaymentSuccess, 5)]]
      = some [(StateType.AwaitingInfo, 7)]
  ∧ StateType.EMVPayment ≠ StateType.AwaitingInfo
  ∧ get_dispatch_fn
      (register_state
        (register_state (none : Registry ℕ) .AwaitingInfo 7) .EMVPayment 9)
      .AwaitingInfo = some 7
  ∧ get_dispatch_fn
      (register_state
        (register_state (none : Registry ℕ) .AwaitingInfo 7) .EMVPayment 9)
      .EMVPayment = none :=
  ⟨registry_first_population_wins.1 ℕ [(StateType.AwaitingInfo, 7)]
     [RegOp.reg .EMVPayment 9, RegOp.init [(.PaymentSuccess, 5)]],
   by decide,
   (registry_first_population_wins.2 ℕ .AwaitingInfo .EMVPayment 7 9
     (by decide)).1,
   (registry_first_population_wins.2 ℕ .AwaitingInfo .EMVPayment 7 9
     (by decide)).2⟩

/-- C3: for any sequence of `execute` calls against the initialized
registry — including interleaved ones, modelled by letting every call
observe an arbitrary (possibly stale) tag before acquiring the value
lock — the stored `StateType` tag always matches the concrete type of
the stored state value. -/
theorem final_tag_matches_stored_value (steps : List ExecStep)
    (m : StateManager) (ch : EventChannel) (h : tagConsistent m) :
    tagConsistent (runSteps fullRegistry m ch steps).1 := by
  induction steps generalizing m ch with
  | nil => exact h
  | cons step rest ih =>
    exact ih _ _
      (executeObserved_preserves_tagConsistent step.observed_tag step.ts
        m ch step.action h)

/-- Witness for C3: a concrete interleaving (step 2 observes a stale
`EMVPayment` tag and is rejected) still ends tag-consistent. -/
theorem final_tag_matches_stored_value_witness :
    tagConsistent ⟨.awaitingInfo AwaitingInfo.initial, .AwaitingInfo⟩
  ∧ tagConsistent
      (runSteps fullRegistry
        ⟨.awaitingInfo AwaitingInfo.initial, .AwaitingInfo⟩
        ⟨[], true⟩
        [⟨.AwaitingInfo, "t1", .awaitingInfo (.SetAmount 100)⟩,
         ⟨.EMVPayment, "t2", .emv .ProcessPayment⟩,
         ⟨.AwaitingInfo, "t3", .awaitingInfo (.SetPaymentType .Credit)⟩,
         ⟨.AwaitingInfo, "t4", .awaitingInfo .ConfirmInfo⟩,
         ⟨.EMVPayment, "t5", .emv .ProcessPayment⟩]).1 :=
  ⟨by decide,
   final_tag_matches_stored_value
     [⟨.AwaitingInfo, "t1", .awaitingInfo (.SetAmount 100)⟩,
      ⟨.EMVPayment, "t2", .emv .ProcessPayment⟩,
      ⟨.AwaitingInfo, "t3", .awaitingInfo (.SetPaymentType .Credit)⟩,
      ⟨.AwaitingInfo, "t4", .awaitingInfo .ConfirmInfo⟩,
      ⟨.EMVPayment, "t5", .emv .ProcessPayment⟩]
     ⟨.awaitingInfo AwaitingInfo.initial, .AwaitingInfo⟩
     ⟨[], true⟩ (by decide)⟩

/-- C5: submitting an action whose concrete type does not match the
current state's expected action type — here `ProcessPayment` (an
`EMVPayment` action) while the current state is `AwaitingInfo` — makes
`execute` return the `IncompatibleAction` error ("Ação incompatível")
and leaves the stored state value and tag unchanged. -/
theorem incompatible_action_rejected_state_unchanged (s : AwaitingInfo)
    (ch : EventChannel) (ts : String) :
    StateManager.execute fullRegistry ts
      ⟨.awaitingInfo s, .AwaitingInfo⟩ ch (.emv .ProcessPayment)
      = (⟨.awaitingInfo s, .AwaitingInfo⟩, ch,
         .error "Ação incompatível") := rfl

/-- C6: from `AwaitingInfo`, `SetAmount` with a non-positive amount
returns the `ValidationError` ("Valor deve ser maior que zero") and the
state stays `AwaitingInfo` with its `amount` and `payment_type` fields
unchanged. -/
theorem nonpositive_amount_validation_error (amount : ℚ)
    (s : AwaitingInfo) (ch : EventChannel) (ts : String)
    (h : amount ≤ 0) :
    StateManager.execute fullRegistry ts
      ⟨.awaitingInfo s, .AwaitingInfo⟩ ch
      (.awaitingInfo (.SetAmount amount))
      = (⟨.awaitingInfo s, .AwaitingInfo⟩, ch,
         .error "Valor deve ser maior que zero") := by
  simp [StateManager.execute, StateManager.executeObserved, fullRegistry,
    initialize_registry, registrySet, fullRegistryMap, get_dispatch_fn,
    mapGet, awaitingInfoDispatch,
    AwaitingInfo.execute_action_with_transition, h]

/-- Witness for C6 at `amount = -10`. -/
theorem nonpositive_amount_validation_error_witness :
    ((-10 : ℚ) ≤ 0)
  ∧ StateManager.execute fullRegistry "t"
      ⟨.awaitingInfo AwaitingInfo.initial, .AwaitingInfo⟩
      ⟨[], true⟩ (.awaitingInfo (.SetAmount (-10)))
      = (⟨.awaitingInfo AwaitingInfo.initial, .AwaitingInfo⟩,
         ⟨[], true⟩, .error "Valor deve ser maior que zero") :=
  ⟨by norm_num,
   nonpositive_amount_validation_error (-10) AwaitingInfo.initial
     ⟨[], true⟩ "t" (by norm_num)⟩

/-- C4: the full round trip. Starting at `AwaitingInfo` with the
initialized registry and a live receiver: `SetAmount(100)`,
`SetPaymentType(Credit)`, `ConfirmInfo` all succeed and leave the state
`EMVPayment` with exactly one event `{AwaitingInfo → EMVPayment}`
published; then `ProcessPayment` succeeds, the state stays `EMVPayment`
and no further event is published; then `CompletePayment(result)`
succeeds, the state becomes `PaymentSuccess`, and exactly one further
event `{EMVPayment → PaymentSuccess}` is published. -/
theorem full_flow_round_trip (result : EmvResult)
    (t1 t2 t3 t4 t5 : String) :
    execSeq fullRegistry
        (StateManager.new (.awaitingInfo AwaitingInfo.initial)
          .AwaitingInfo).1
        (StateManager.new (.awaitingInfo AwaitingInfo.initial)
          .AwaitingInfo).2
        [(t1, .awaitingInfo (.SetAmount 100)),
         (t2, .awaitingInfo (.SetPaymentType .Credit)),
         (t3, .awaitingInfo .ConfirmInfo)]
      = (⟨.emvPayment
            { payment_info := { amount := 100, payment_type := .Credit },
              processing := false, emv_result := none }, .EMVPayment⟩,
         { events := [{ from_state := .AwaitingInfo,
                        to_state := .EMVPayment, timestamp := t3 }],
           receiver_alive := true },
         [.ok "Ação executada - permanece no mesmo estado",
          .ok "Ação executada - permanece no mesmo estado",
          .ok "Transicionado para EMVPayment"])
  ∧ execSeq fullRegistry
        (StateManager.new (.awaitingInfo AwaitingInfo.initial)
          .AwaitingInfo).1
        (StateManager.new (.awaitingInfo AwaitingInfo.initial)
          .AwaitingInfo).2
        [(t1, .awaitingInfo (.SetAmount 100)),
         (t2, .awaitingInfo (.SetPaymentType .Credit)),
         (t3, .awaitingInfo .ConfirmInfo),
         (t4, .emv .ProcessPayment)]
      = (⟨.emvPayment
            { payment_info := { amount := 100, payment_type := .Credit },
              processing := true, emv_result := none }, .EMVPayment⟩,
         { events := [{ from_state := .AwaitingInfo,
                        to_state := .EMVPayment, timestamp := t3 }],
           receiver_alive := true },
         [.ok "Ação executada - permanece no mesmo estado",
          .ok "Ação executada - permanece no mesmo estado",
          .ok "Transicionado para EMVPayment",
          .ok "Ação executada - permanece no mesmo estado"])
  ∧ execSeq fullRegistry
        (StateManager.new (.awaitingInfo AwaitingInfo.initial)
          .AwaitingInfo).1
        (StateManager.new (.awaitingInfo AwaitingInfo.initial)
          .AwaitingInfo).2
        [(t1, .awaitingInfo (.SetAmount 100)),
         (t2, .awaitingInfo (.SetPaymentType .Credit)),
         (t3, .awaitingInfo .ConfirmInfo),
         (t4, .emv .ProcessPayment),
         (t5, .emv (.CompletePayment result))]
      = (⟨.paymentSuccess
            { payment_info := { amount := 100, payment_type := .Credit },
              result := result }, .PaymentSuccess⟩,
         { events := [{ from_state := .AwaitingInfo,
                        to_state := .EMVPayment, timestamp := t3 },
                      { from_state := .EMVPayment,
                        to_state := .PaymentSuccess, timestamp := t5 }],
           receiver_alive := true },
         [.ok "Ação executada - permanece no mesmo estado",
          .ok "Ação executada - permanece no mesmo estado",
          .ok "Transicionado para EMVPayment",
          .ok "Ação executada - permanece no mesmo estado",
          .ok "Transicionado para PaymentSuccess"]) :=
  ⟨rfl, rfl, rfl⟩

/-- C7: from any `EMVPayment` state, `CancelPayment` (with a live
receiver) succeeds and transitions to a freshly constructed
`AwaitingInfo` with `amount = None` and `payment_type = None`, so a
subsequent description query reports that no amount or payment type is
set. -/
theorem cancel_payment_fresh_awaiting_info (e : EMVPayment)
    (ch : EventChannel) (ts : String) (h : ch.receiver_alive = true) :
    StateManager.execute fullRegistry ts
      ⟨.emvPayment e, .EMVPayment⟩ ch (.emv .CancelPayment)
      = (⟨.awaitingInfo AwaitingInfo.initial, .AwaitingInfo⟩,
         { events := ch.events ++
             [{ from_state := .EMVPayment, to_state := .AwaitingInfo,
                timestamp := ts }],
           receiver_alive := ch.receiver_alive },
         .ok "Transicionado para AwaitingInfo")
  ∧ AwaitingInfo.initial.amount = none
  ∧ AwaitingInfo.initial.payment_type = none
  ∧ StateManager.get_description
      ⟨.awaitingInfo AwaitingInfo.initial, .AwaitingInfo⟩
      StateValue.downcastAwaitingInfo AwaitingInfo.description
      = .ok "Aguardando informações do pagamento" := by
  refine ⟨?_, rfl, rfl, rfl⟩
  simp [StateManager.execute, StateManager.executeObserved, fullRegistry,
    initialize_registry, registrySet, fullRegistryMap, get_dispatch_fn,
    mapGet, emvPaymentDispatch, EMVPayment.execute_action_with_transition,
    StateManager.notify_state_change, EventChannel.sendEvent, h,
    stateTypeDebug]

/-- Witness for C7 at a concrete `EMVPayment` state and channel. -/
theorem cancel_payment_fresh_awaiting_info_witness :
    (⟨[], true⟩ : EventChannel).receiver_alive = true
  ∧ (StateManager.execute fullRegistry "t"
      ⟨.emvPayment ⟨⟨250, .Debit⟩, true, none⟩, .EMVPayment⟩
      ⟨[], true⟩ (.emv .CancelPayment)
      = (⟨.awaitingInfo AwaitingInfo.initial, .AwaitingInfo⟩,
         { events := ([] : List StateChangeEvent) ++
             [{ from_state := .EMVPayment, to_state := .AwaitingInfo,
                timestamp := "t" }],
           receiver_alive := true },
         .ok "Transicionado para AwaitingInfo")
    ∧ AwaitingInfo.initial.amount = none
    ∧ AwaitingInfo.initial.payment_type = none
    ∧ StateManager.get_description
        ⟨.awaitingInfo AwaitingInfo.initial, .AwaitingInfo⟩
        StateValue.downcastAwaitingInfo AwaitingInfo.description
        = .ok "Aguardando informações do pagamento") :=
  ⟨rfl, cancel_payment_fresh_awaiting_info ⟨⟨250, .Debit⟩, true, none⟩
    ⟨[], true⟩ "t" rfl⟩

/-- C8: when the current tag has no registry entry — here the
uninitialised `OnceLock`, i.e. `execute` before any registry
initialization — `execute` returns the `UnregisteredState` error
("Estado não registrado: ...") and the stored state value and tag are
unchanged. -/
theorem unregistered_state_returns_error (m : StateManager)
    (ch : EventChannel) (ts : String) (a : AnyAction) :
    StateManager.execute (none : Registry DispatchFn) ts m ch a
      = (m, ch,
         .error ("Estado não registrado: "
           ++ stateTypeDebug m.current_state_type)) := rfl

/-- C10: for every `EMVPayment` state with `processing = true`,
`CompletePayment{result}` constructs the `PaymentSuccess` successor
with `payment_info` exactly equal to the current `payment_info` and
`result` exactly the submitted result. -/
theorem complete_payment_preserves_payment_info (e : EMVPayment)
    (result : EmvResult) (h : e.processing = true) :
    e.execute_action_with_transition (.CompletePayment result)
      = .ok (e, some (.PaymentSuccess,
          .paymentSuccess { payment_info := e.payment_info,
                            result := result })) := by
  simp [EMVPayment.execute_action_with_transition, h]

/-- Witness for C10 at a concrete processing `EMVPayment` state. -/
theorem complete_payment_preserves_payment_info_witness :
    (⟨⟨100, .Credit⟩, true, none⟩ : EMVPayment).processing = true
  ∧ (⟨⟨100, .Credit⟩, true, none⟩ : EMVPayment).execute_action_with_transition
      (.CompletePayment ⟨"TXN123", "AUTH456", "ts"⟩)
      = .ok (⟨⟨100, .Credit⟩, true, none⟩,
          some (.PaymentSuccess,
            .paymentSuccess ⟨⟨100, .Credit⟩, ⟨"TXN123", "AUTH456", "ts"⟩⟩)) :=
  ⟨rfl, complete_payment_preserves_payment_info
    ⟨⟨100, .Credit⟩, true, none⟩ ⟨"TXN123", "AUTH456", "ts"⟩ rfl⟩

/-- C9: if a transitioning `execute` call's event publish fails because
the receiver endpoint was dropped, the call returns an error, yet the
stored state value and tag have already been replaced by the successor:
a subsequent `get_current_state_type` returns the new tag. The
transition commits even though `execute` reports failure. -/
theorem transition_commits_despite_notify_error (m : StateManager)
    (ch : EventChannel) (ts : String) (a : AnyAction) (f : DispatchFn)
    (v0 w : StateValue) (t2 : StateType)
    (hrecv : ch.receiver_alive = false)
    (hf : get_dispatch_fn fullRegistry m.current_state_type = some f)
    (hd : f m.current_state a = .ok (v0, some (t2, w))) :
    StateManager.execute fullRegistry ts m ch a
      = (⟨w, t2⟩, ch,
         .error "Falha ao notificar mudança de estado: channel closed")
  ∧ (StateManager.execute fullRegistry ts m ch a).1.get_current_state_type
      = t2 := by
  have h1 : StateManager.execute fullRegistry ts m ch a
      = (⟨w, t2⟩, ch,
         .error "Falha ao notificar mudança de estado: channel closed") := by
    simp [StateManager.execute, StateManager.executeObserved, hf, hd,
      StateManager.notify_state_change, EventChannel.sendEvent, hrecv]
  exact ⟨h1, by rw [h1]; rfl⟩

/-- Witness for C9: `ConfirmInfo` from a filled `AwaitingInfo` with a
dropped receiver. -/
theorem transition_commits_despite_notify_error_witness :
    (⟨[], false⟩ : EventChannel).receiver_alive = false
  ∧ get_dispatch_fn fullRegistry
      (⟨.awaitingInfo ⟨some 100, some .Credit⟩, .AwaitingInfo⟩
        : StateManager).current_state_type = some awaitingInfoDispatch
  ∧ awaitingInfoDispatch (.awaitingInfo ⟨some 100, some .Credit⟩)
      (.awaitingInfo .ConfirmInfo)
      = .ok (.awaitingInfo ⟨some 100, some .Credit⟩,
          some (.EMVPayment, .emvPayment ⟨⟨100, .Credit⟩, false, none⟩))
  ∧ (StateManager.execute fullRegistry "t"
       ⟨.awaitingInfo ⟨some 100, some .Credit⟩, .AwaitingInfo⟩
       ⟨[], false⟩ (.awaitingInfo .ConfirmInfo)
      = (⟨.emvPayment ⟨⟨100, .Credit⟩, false, none⟩, .EMVPayment⟩,
         ⟨[], false⟩,
         .error "Falha ao notificar mudança de estado: channel closed")
    ∧ (StateManager.execute fullRegistry "t"
        ⟨.awaitingInfo ⟨some 100, some .Credit⟩, .AwaitingInfo⟩
        ⟨[], false⟩
        (.awaitingInfo .ConfirmInfo)).1.get_current_state_type
        = .EMVPayment) :=
  ⟨rfl, rfl, rfl,
   transition_commits_despite_notify_error
     ⟨.awaitingInfo ⟨some 100, some .Credit⟩, .AwaitingInfo⟩
     ⟨[], false⟩ "t" (.awaitingInfo .ConfirmInfo) awaitingInfoDispatch
     (.awaitingInfo ⟨some 100, some .Credit⟩)
     (.emvPayment ⟨⟨100, .Credit⟩, false, none⟩) .EMVPayment
     rfl rfl rfl⟩

/-- C1 counterexample: a transitioning `execute` call whose event
publish fails (no live receiver) does NOT return success to the caller —
at this concrete input it returns the notify error, refuting the claim
that such a call still returns success. -/
theorem notify_failure_returns_error_cex :
    (StateManager.execute fullRegistry "2024-01-01T00:00:00Z"
       ⟨.awaitingInfo ⟨some 50, some .Debit⟩, .AwaitingInfo⟩
       ⟨[], false⟩ (.awaitingInfo .ConfirmInfo)).2.2
      = .error "Falha ao notificar mudança de estado: channel closed" := rfl

/-- C1 amended: when a transitioning `execute` call's event publish
fails (no live receiver), the committed transition is indeed not rolled
back — the manager cells hold the successor value and tag — but the
publish failure IS returned to the caller as an error
("Falha ao notificar mudança de estado: ...") rather than being
swallowed as a success. -/
theorem notify_failure_surfaced_transition_kept (m : StateManager)
    (ch : EventChannel) (ts : String) (a : AnyAction) (f : DispatchFn)
    (v0 w : StateValue) (t2 : StateType)
    (hf : get_dispatch_fn fullRegistry m.current_state_type = some f)
    (hd : f m.current_state a = .ok (v0, some (t2, w))) :
    (StateManager.execute fullRegistry ts m ch a).1 = ⟨w, t2⟩
  ∧ (ch.receiver_alive = false →
      (StateManager.execute fullRegistry ts m ch a).2.2
        = .error "Falha ao notificar mudança de estado: channel closed") := by
  constructor
  · cases hA : ch.receiver_alive <;>
      simp [StateManager.execute, StateManager.executeObserved, hf, hd,
        StateManager.notify_state_change, EventChannel.sendEvent, hA]
  · intro hA
    simp [StateManager.execute, StateManager.executeObserved, hf, hd,
      StateManager.notify_state_change, EventChannel.sendEvent, hA]

/-- Witness for the amended C1: `CancelPayment` from `EMVPayment` with
a dropped receiver. -/
theorem notify_failure_surfaced_transition_kept_witness :
    get_dispatch_fn fullRegistry
      (⟨.emvPayment ⟨⟨75, .Credit⟩, false, none⟩, .EMVPayment⟩
        : StateManager).current_state_type = some emvPaymentDispatch
  ∧ emvPaymentDispatch (.emvPayment ⟨⟨75, .Credit⟩, false, none⟩)
      (.emv .CancelPayment)
      = .ok (.emvPayment ⟨⟨75, .Credit⟩, false, none⟩,
          some (.AwaitingInfo, .awaitingInfo AwaitingInfo.initial))
  ∧ (StateManager.execute fullRegistry "t"
       ⟨.emvPayment ⟨⟨75, .Credit⟩, false, none⟩, .EMVPayment⟩
       ⟨[], false⟩ (.emv .CancelPayment)).1
      = ⟨.awaitingInfo AwaitingInfo.initial, .AwaitingInfo⟩
  ∧ (StateManager.execute fullRegistry "t"
       ⟨.emvPayment ⟨⟨75, .Credit⟩, false, none⟩, .EMVPayment⟩
       ⟨[], false⟩ (.emv .CancelPayment)).2.2
      = .error "Falha ao notificar mudança de estado: channel closed" :=
  ⟨rfl, rfl,
   (notify_failure_surfaced_transition_kept
     ⟨.emvPayment ⟨⟨75, .Credit⟩, false, none⟩, .EMVPayment⟩
     ⟨[], false⟩ "t" (.emv .CancelPayment) emvPaymentDispatch
     (.emvPayment ⟨⟨75, .Credit⟩, false, none⟩)
     (.awaitingInfo AwaitingInfo.initial) .AwaitingInfo rfl rfl).1,
   (notify_failure_surfaced_transition_kept
     ⟨.emvPayment ⟨⟨75, .Credit⟩, false, none⟩, .EMVPayment⟩
     ⟨[], false⟩ "t" (.emv .CancelPayment) emvPaymentDispatch
     (.emvPayment ⟨⟨75, .Credit⟩, false, none⟩)
     (.awaitingInfo AwaitingInfo.initial) .AwaitingInfo rfl rfl).2 rfl⟩
